import Mathlib

/-!
Shallow embedding of the theatre-api reservation/availability subsystem
(`src/theatre/models.py`, `src/theatre/views.py`).  Records mirror the Django
models; the query layer mirrors the viewsets' `get_queryset` pipelines; write
operations mirror the create/update/delete actions.  The Reservation and
Ticket models and the serializers are referenced from `views.py` and
`admin.py` but their definitions are not under `src/`; those parts are
modelled from the spec and carry a `Modelled from the spec:` doc comment.
-/

namespace Theatre

/-- `TheatreHall` model: `name`, `rows : IntegerField`, `seats_in_row :
IntegerField` (`models.py` lines 8-11; plain `IntegerField`, so dimensions are
embedded as `Int`). -/
structure TheatreHall where
  id : Nat
  name : String
  rows : Int
  seats_in_row : Int
deriving DecidableEq

/-- `TheatreHall.capacity` property: `rows * seats_in_row` (`models.py`
lines 13-15). -/
def TheatreHall.capacity (h : TheatreHall) : Int :=
  h.rows * h.seats_in_row

/-- `Genre` model: unique `name` (`models.py` lines 21-22). -/
structure Genre where
  id : Nat
  name : String
deriving DecidableEq

/-- `Actor` model (`models.py` lines 28-30). -/
structure Actor where
  id : Nat
  first_name : String
  last_name : String
deriving DecidableEq

/-- `Play` model: title, description, many-to-many genre and actor ids
(`models.py` lines 47-52; the image field plays no role in the claims). -/
structure Play where
  id : Nat
  title : String
  description : String
  genres : List Nat
  actors : List Nat
deriving DecidableEq

/-- A calendar date, the value `strptime(date, "%Y-%m-%d").date()` produces. -/
structure Date where
  year : Int
  month : Nat
  day : Nat
deriving DecidableEq

/-- A `DateTimeField` value: a calendar date plus a time-of-day component, so
that `show_time__date` projects the date. -/
structure DateTime where
  date : Date
  minuteOfDay : Nat
deriving DecidableEq

/-- `Performance` model: FK to play and theatre hall, `show_time`
(`models.py` lines 61-64). -/
structure Performance where
  id : Nat
  play_id : Nat
  theatre_hall_id : Nat
  show_time : DateTime
deriving DecidableEq

/-- Modelled from the spec: the `Reservation` model (its definition is below
the end of the `src/theatre/models.py` excerpt; `views.py` and `admin.py`
reference it).  Per the spec it holds an owning user and groups tickets; the
`created_at` timestamp plays no role in the claims and is omitted. -/
structure Reservation where
  id : Nat
  user_id : Nat
deriving DecidableEq

/-- Modelled from the spec: the `Ticket` model (definition missing from the
`src/theatre/models.py` excerpt).  Per the spec: `{id, row, seat, performance
(required), reservation (required)}`. -/
structure Ticket where
  id : Nat
  row : Int
  seat : Int
  performance_id : Nat
  reservation_id : Nat
deriving DecidableEq

/-- The relational store backing the API: one table per model. -/
structure DB where
  halls : List TheatreHall
  genres : List Genre
  actors : List Actor
  plays : List Play
  performances : List Performance
  reservations : List Reservation
  tickets : List Ticket
deriving DecidableEq

def emptyDB : DB := ⟨[], [], [], [], [], [], []⟩

/-- The error taxonomy the API surfaces (spec section 7), plus the unhandled
exception a `ValueError` escaping a view produces. -/
inductive ApiError where
  | validationError (msg : String)
  | notFound
  | permissionDenied
  | unhandledException
deriving DecidableEq

instance {ε α : Type} [DecidableEq ε] [DecidableEq α] : DecidableEq (Except ε α) :=
  fun x y =>
    match x, y with
    | Except.error e, Except.error f =>
        if h : e = f then isTrue (by rw [h])
        else isFalse (by intro hc; cases hc; exact h rfl)
    | Except.error _, Except.ok _ => isFalse (by intro h; cases h)
    | Except.ok _, Except.error _ => isFalse (by intro h; cases h)
    | Except.ok a, Except.ok b =>
        if h : a = b then isTrue (by rw [h])
        else isFalse (by intro hc; cases hc; exact h rfl)

def findHall (db : DB) (hid : Nat) : Option TheatreHall :=
  db.halls.find? (fun h => h.id == hid)

def findPlay (db : DB) (pid : Nat) : Option Play :=
  db.plays.find? (fun p => p.id == pid)

def findPerformance (db : DB) (pid : Nat) : Option Performance :=
  db.performances.find? (fun p => p.id == pid)

/-- `Count("tickets")` for one performance: the number of persisted tickets
referencing it, read from the ticket table. -/
def countTickets (db : DB) (pid : Nat) : Nat :=
  (db.tickets.filter (fun t => t.performance_id == pid)).length

/-- One row of `PerformanceViewSet.queryset`: the performance joined with its
play and hall (`select_related`) and the annotation
`tickets_available = F("theatre_hall__rows") * F("theatre_hall__seats_in_row")
- Count("tickets")` (`views.py` lines 268-277). -/
structure AnnotatedPerformance where
  performance : Performance
  play : Play
  hall : TheatreHall
  tickets_available : Int
deriving DecidableEq

/-- The join-and-annotate step of `PerformanceViewSet.queryset`: a
performance produces a row only when both foreign keys resolve (inner join),
and the row carries the computed `tickets_available`. -/
def annotatePerformance (db : DB) (p : Performance) : Option AnnotatedPerformance :=
  match findPlay db p.play_id, findHall db p.theatre_hall_id with
  | some play, some hall =>
      some ⟨p, play, hall, hall.rows * hall.seats_in_row - (countTickets db p.id : Int)⟩
  | _, _ => none

/-- `PerformanceViewSet.get_queryset` after parameter parsing: filter by
`show_time__date = date` when a date was supplied and by `play_id` when a play
id was supplied (`views.py` lines 280-294). -/
def performancesFiltered (db : DB) (date? : Option Date) (play? : Option Int) :
    List Performance :=
  let q0 := db.performances
  let q1 := match date? with
    | some d => q0.filter (fun (p : Performance) => p.show_time.date == d)
    | none => q0
  match play? with
  | some pid => q1.filter (fun (p : Performance) => (p.play_id : Int) == pid)
  | none => q1

def performancesQueryset (db : DB) (date? : Option Date) (play? : Option Int) :
    List AnnotatedPerformance :=
  (performancesFiltered db date? play?).filterMap (annotatePerformance db)

/-- `str.split(sep)` on one-character separators, accumulator form. -/
def pySplitAux (sep : Char) : List Char → List Char → List String
  | [], acc => [String.mk acc.reverse]
  | c :: cs, acc =>
      if c = sep then String.mk acc.reverse :: pySplitAux sep cs []
      else pySplitAux sep cs (c :: acc)

/-- Python `s.split(sep)` for a one-character separator. -/
def pySplit (s : String) (sep : Char) : List String :=
  pySplitAux sep s.toList []

def digitsAux : List Char → Nat → Option Nat
  | [], acc => some acc
  | c :: cs, acc =>
      if c.isDigit then digitsAux cs (acc * 10 + (c.toNat - 48)) else none

/-- A nonempty all-digit character run as a number, else `none`. -/
def digitsToNat : List Char → Option Nat
  | [] => none
  | l => digitsAux l 0

/-- Python `int(s)`: optional sign followed by digits; anything else raises
`ValueError` (here: `none`). -/
def pyToInt? (s : String) : Option Int :=
  match s.toList with
  | '-' :: rest => (digitsToNat rest).map (fun n => -(n : Int))
  | '+' :: rest => (digitsToNat rest).map (fun n => (n : Int))
  | l => (digitsToNat l).map (fun n => (n : Int))

/-- `PlayViewSet._params_to_ints`: `[int(str_id) for str_id in qs.split(",")]`
(`views.py` lines 144-147).  `int` raises `ValueError` on a non-integer
token; the embedding returns `none` there. -/
def params_to_ints (qs : String) : Option (List Int) :=
  (pySplit qs ',').mapM pyToInt?

/-- Case-insensitive substring test, the semantics of `title__icontains`. -/
def icontains (haystack needle : String) : Bool :=
  decide ((needle.toList.map Char.toLower) <:+: (haystack.toList.map Char.toLower))

/-- The `genres__id__in` join: each play row is repeated once per matching
genre (SQL join semantics), which is why `get_queryset` ends in
`.distinct()`. -/
def joinGenres (l : List Play) (ids : List Int) : List Play :=
  l.flatMap (fun p => (p.genres.filter (fun (g : Nat) => decide ((g : Int) ∈ ids))).map (fun _ => p))

/-- The `actors__id__in` join, same shape as `joinGenres`. -/
def joinActors (l : List Play) (ids : List Int) : List Play :=
  l.flatMap (fun p => (p.actors.filter (fun (a : Nat) => decide ((a : Int) ∈ ids))).map (fun _ => p))

/-- `PlayViewSet.get_queryset` after parameter parsing: optional
`title__icontains`, `genres__id__in`, `actors__id__in` filters, then
`.distinct()`, then the model ordering `["title"]` (`views.py` lines 149-168,
`models.py` lines 54-55). -/
def playsQueryset (db : DB) (title? : Option String)
    (genres? actors? : Option (List Int)) : List Play :=
  let q0 := db.plays
  let q1 := match title? with
    | some t => q0.filter (fun p => icontains p.title t)
    | none => q0
  let q2 := match genres? with
    | some ids => joinGenres q1 ids
    | none => q1
  let q3 := match actors? with
    | some ids => joinActors q2 ids
    | none => q2
  List.insertionSort (fun a b => a.title ≤ b.title) q3.dedup

/-- `listPlays`: the raw HTTP layer of `PlayViewSet.get_queryset`.  A missing
or empty parameter is falsy and skips its filter; a present `genres`/`actors`
parameter goes through `_params_to_ints`, whose `int(...)` raises an
unhandled `ValueError` on a non-integer token. -/
def listPlays (db : DB) (titleParam genresParam actorsParam : Option String) :
    Except ApiError (List Play) := do
  let title? := match titleParam with
    | some t => if t == "" then none else some t
    | none => none
  let genres? ← match genresParam with
    | some g =>
        if g == "" then pure none else
          match params_to_ints g with
          | some ids => pure (some ids)
          | none => throw ApiError.unhandledException
    | none => pure none
  let actors? ← match actorsParam with
    | some a =>
        if a == "" then pure none else
          match params_to_ints a with
          | some ids => pure (some ids)
          | none => throw ApiError.unhandledException
    | none => pure none
  pure (playsQueryset db title? genres? actors?)

def daysInMonth (year : Int) (month : Nat) : Nat :=
  if month == 2 then
    if year % 4 == 0 && (year % 100 != 0 || year % 400 == 0) then 29 else 28
  else if month == 4 || month == 6 || month == 9 || month == 11 then 30
  else 31

/-- `datetime.strptime(date, "%Y-%m-%d").date()`: parse a `YYYY-MM-DD` string,
raising `ValueError` (here: `none`) on malformed input or out-of-range
components. -/
def strptimeDate (s : String) : Option Date :=
  match pySplit s '-' with
  | [y, m, d] =>
      match digitsToNat y.toList, digitsToNat m.toList, digitsToNat d.toList with
      | some yv, some mv, some dv =>
          if y.toList.length ≤ 4 && m.toList.length ≤ 2 && d.toList.length ≤ 2 &&
             1 ≤ mv && mv ≤ 12 && 1 ≤ dv && dv ≤ daysInMonth (yv : Int) mv then
            some ⟨(yv : Int), mv, dv⟩
          else none
      | _, _, _ => none
  | _ => none

/-- `listPerformances`: the raw HTTP layer of
`PerformanceViewSet.get_queryset` (`views.py` lines 280-294).  A missing or
empty parameter skips its filter; a present `date` goes through `strptime`
and a present `play` through `int(...)`, both of which raise an unhandled
`ValueError` on malformed input. -/
def listPerformances (db : DB) (dateParam playParam : Option String) :
    Except ApiError (List AnnotatedPerformance) := do
  let date? ← match dateParam with
    | some s =>
        if s == "" then pure none else
          match strptimeDate s with
          | some d => pure (some d)
          | none => throw ApiError.unhandledException
    | none => pure none
  let play? ← match playParam with
    | some s =>
        if s == "" then pure none else
          match pyToInt? s with
          | some n => pure (some n)
          | none => throw ApiError.unhandledException
    | none => pure none
  pure (performancesQueryset db date? play?)

/-- `getPerformance`: the retrieve action looks the object up in the
annotated base queryset; absent id gives 404. -/
def getPerformance (db : DB) (pid : Nat) : Except ApiError AnnotatedPerformance :=
  match (performancesQueryset db none none).find? (fun a => a.performance.id == pid) with
  | some a => Except.ok a
  | none => Except.error ApiError.notFound

/-- Auto-increment primary keys: one more than the largest id in the table. -/
def nextId (ids : List Nat) : Nat :=
  ids.foldr max 0 + 1

/-- Modelled from the spec: `createGenre` fails with `ValidationError` when
the name already exists (unique constraint on `Genre.name`,
`models.py` line 22; the serializer is not under `src/`). -/
def createGenre (db : DB) (name : String) : Except ApiError DB :=
  if db.genres.any (fun g => g.name == name) then
    Except.error (ApiError.validationError "genre with this name already exists")
  else
    Except.ok { db with genres := db.genres ++ [⟨nextId (db.genres.map Genre.id), name⟩] }

def createActor (db : DB) (fn ln : String) : Except ApiError DB :=
  Except.ok { db with actors := db.actors ++ [⟨nextId (db.actors.map Actor.id), fn, ln⟩] }

/-- Modelled from the spec: `TheatreHallSerializer` validation
(`serializers.py` is not under `src/`).  Per the spec, `rows` and
`seats_in_row` must be positive integers and the request fails with
`ValidationError` otherwise; the model fields are plain `IntegerField`s
(`models.py` lines 8-11), so integrality is the embedding's `Int` type. -/
def createHall (db : DB) (name : String) (rows seats_in_row : Int) :
    Except ApiError DB :=
  if rows ≤ 0 ∨ seats_in_row ≤ 0 then
    Except.error (ApiError.validationError "rows and seats_in_row must be positive integers")
  else
    Except.ok { db with halls :=
      db.halls ++ [⟨nextId (db.halls.map TheatreHall.id), name, rows, seats_in_row⟩] }

/-- Modelled from the spec: `createPlay` validates that every referenced
genre and actor id exists (`PlaySerializer` is not under `src/`). -/
def createPlay (db : DB) (title description : String)
    (genreIds actorIds : List Nat) : Except ApiError DB :=
  if genreIds.all (fun g => db.genres.any (fun x => x.id == g)) &&
     actorIds.all (fun a => db.actors.any (fun x => x.id == a)) then
    Except.ok { db with plays :=
      db.plays ++ [⟨nextId (db.plays.map Play.id), title, description, genreIds, actorIds⟩] }
  else
    Except.error (ApiError.validationError "invalid genre or actor id")

/-- Modelled from the spec: `updatePlay` (full update); replaces the fields
of the play with the given id after the same reference validation. -/
def updatePlay (db : DB) (pid : Nat) (title description : String)
    (genreIds actorIds : List Nat) : Except ApiError DB :=
  match findPlay db pid with
  | none => Except.error ApiError.notFound
  | some _ =>
      if genreIds.all (fun g => db.genres.any (fun x => x.id == g)) &&
         actorIds.all (fun a => db.actors.any (fun x => x.id == a)) then
        Except.ok { db with plays := db.plays.map (fun p =>
          if p.id == pid then ⟨p.id, title, description, genreIds, actorIds⟩ else p) }
      else
        Except.error (ApiError.validationError "invalid genre or actor id")

/-- Modelled from the spec: `createPerformance` validates that both foreign
references exist (`PerformanceSerializer` is not under `src/`). -/
def createPerformance (db : DB) (playId hallId : Nat) (show_time : DateTime) :
    Except ApiError DB :=
  match findPlay db playId, findHall db hallId with
  | some _, some _ =>
      Except.ok { db with performances :=
        db.performances ++
          [⟨nextId (db.performances.map Performance.id), playId, hallId, show_time⟩] }
  | _, _ => Except.error (ApiError.validationError "invalid play or theatre hall id")

/-- Modelled from the spec: `updatePerformance` (full update) with the same
reference validation. -/
def updatePerformance (db : DB) (pid playId hallId : Nat) (show_time : DateTime) :
    Except ApiError DB :=
  match findPerformance db pid with
  | none => Except.error ApiError.notFound
  | some _ =>
      match findPlay db playId, findHall db hallId with
      | some _, some _ =>
          Except.ok { db with performances := db.performances.map (fun p =>
            if p.id == pid then ⟨p.id, playId, hallId, show_time⟩ else p) }
      | _, _ => Except.error (ApiError.validationError "invalid play or theatre hall id")

/-- `deletePerformance`: `on_delete=CASCADE` on `Ticket.performance` means
deleting a performance also deletes its tickets. -/
def deletePerformance (db : DB) (pid : Nat) : Except ApiError DB :=
  if db.performances.any (fun p => p.id == pid) then
    Except.ok { db with
      performances := db.performances.filter (fun p => !(p.id == pid)),
      tickets := db.tickets.filter (fun t => !(t.performance_id == pid)) }
  else
    Except.error ApiError.notFound

/-- One requested seat in a `createReservation` payload. -/
structure TicketRequest where
  performance_id : Nat
  row : Int
  seat : Int
deriving DecidableEq

/-- A `createReservation` payload: the requested tickets plus whatever `user`
value the client chose to send (the view never reads it). -/
structure ReservationRequest where
  user_field : Option Nat
  tickets : List TicketRequest
deriving DecidableEq

/-- Do tickets `a` and `b` book the same seat of the same performance? -/
def Ticket.collidesWith (a : Ticket) (b : Ticket) : Bool :=
  a.performance_id == b.performance_id && a.row == b.row && a.seat == b.seat

/-- Modelled from the spec: creation of a single ticket inside
`ReservationSerializer.create` (the `Ticket` model's `validate_ticket` and
the serializer are not under `src/`).  Per the spec: the referenced
performance must exist, `1 <= row <= hall.rows`,
`1 <= seat <= hall.seats_in_row`, and the `(performance, row, seat)` triple
must not already be taken; any violation is a `ValidationError`. -/
def insertTicket (db : DB) (resId : Nat) (t : TicketRequest) : Except ApiError DB :=
  match findPerformance db t.performance_id with
  | none => Except.error (ApiError.validationError "invalid performance id")
  | some p =>
      match findHall db p.theatre_hall_id with
      | none => Except.error (ApiError.validationError "invalid theatre hall id")
      | some h =>
          if t.row < 1 ∨ h.rows < t.row then
            Except.error (ApiError.validationError "row number out of available range")
          else if t.seat < 1 ∨ h.seats_in_row < t.seat then
            Except.error (ApiError.validationError "seat number out of available range")
          else
            let row : Ticket :=
              ⟨db.tickets.length, t.row, t.seat, t.performance_id, resId⟩
            if db.tickets.any (fun u => Ticket.collidesWith u row) then
              Except.error (ApiError.validationError "seat already taken")
            else
              Except.ok { db with tickets := db.tickets ++ [row] }

/-- The ticket-creation loop of `ReservationSerializer.create`: tickets are
inserted one by one into the transaction's view of the store, so a later
request ticket is also checked against the earlier ones. -/
def insertTickets (resId : Nat) (db : DB) : List TicketRequest → Except ApiError DB
  | [] => Except.ok db
  | t :: rest =>
      match insertTicket db resId t with
      | Except.error e => Except.error e
      | Except.ok db1 => insertTickets resId db1 rest

/-- Modelled from the spec: `createReservation`
(`ReservationSerializer.create` is not under `src/`; its caller
`ReservationViewSet.perform_create` is, `views.py` lines 365-366, and saves
with `user=self.request.user`).  The reservation row is created with the
authenticated caller as owner — `req.user_field` is never read — and the
tickets are inserted inside one transaction: on any `ValidationError` the
transaction rolls back, discarding the partially built state, so the
operation returns either the fully extended store or the error. -/
def createReservation (db : DB) (caller : Nat) (req : ReservationRequest) :
    Except ApiError DB :=
  let resId := nextId (db.reservations.map Reservation.id)
  let db1 := { db with reservations := db.reservations ++ [⟨resId, caller⟩] }
  match insertTickets resId db1 req.tickets with
  | Except.ok db2 => Except.ok db2
  | Except.error e => Except.error e

/-- Does the request fail with an HTTP 400 `ValidationError` response? -/
def failsWithValidationError (r : Except ApiError DB) : Bool :=
  match r with
  | Except.error (ApiError.validationError _) => true
  | _ => false

/-- The ticket rows a fully persisted request produces: ids count up from the
current ticket-table size, all rows referencing the new reservation. -/
def requestRows (resId : Nat) : Nat → List TicketRequest → List Ticket
  | _, [] => []
  | base, t :: rest =>
      ⟨base, t.row, t.seat, t.performance_id, resId⟩ :: requestRows resId (base + 1) rest

/-- The store a fully successful `createReservation` leaves behind: the new
reservation owned by the caller plus every requested ticket. -/
def reservationSuccessState (db : DB) (caller : Nat) (req : ReservationRequest) : DB :=
  { db with
    reservations :=
      db.reservations ++ [⟨nextId (db.reservations.map Reservation.id), caller⟩],
    tickets :=
      db.tickets ++
        requestRows (nextId (db.reservations.map Reservation.id))
          db.tickets.length req.tickets }

/-- `ReservationPagination`: `page_size = 10` (`views.py` lines 339-341);
pages are 1-based. -/
def paginate (pageSize page : Nat) (l : List Reservation) : List Reservation :=
  (l.drop ((page - 1) * pageSize)).take pageSize

/-- `ReservationViewSet.get_queryset`:
`Reservation.objects.filter(user=self.request.user)` (`views.py` lines
356-357), then the view's pagination. -/
def listReservations (db : DB) (caller : Nat) (page : Nat) : List Reservation :=
  paginate 10 page (db.reservations.filter (fun r => r.user_id == caller))

/-- The states reachable from the empty store through the operations the API
exposes (each constructor is one successful request). -/
inductive Reachable : DB → Prop where
  | empty : Reachable emptyDB
  | genre (db db' : DB) (n : String) :
      Reachable db → createGenre db n = Except.ok db' → Reachable db'
  | actor (db db' : DB) (fn ln : String) :
      Reachable db → createActor db fn ln = Except.ok db' → Reachable db'
  | hall (db db' : DB) (n : String) (r s : Int) :
      Reachable db → createHall db n r s = Except.ok db' → Reachable db'
  | play (db db' : DB) (t d : String) (gs as : List Nat) :
      Reachable db → createPlay db t d gs as = Except.ok db' → Reachable db'
  | playUpd (db db' : DB) (pid : Nat) (t d : String) (gs as : List Nat) :
      Reachable db → updatePlay db pid t d gs as = Except.ok db' → Reachable db'
  | performance (db db' : DB) (pl hl : Nat) (st : DateTime) :
      Reachable db → createPerformance db pl hl st = Except.ok db' → Reachable db'
  | performanceUpd (db db' : DB) (pid pl hl : Nat) (st : DateTime) :
      Reachable db → updatePerformance db pid pl hl st = Except.ok db' → Reachable db'
  | performanceDel (db db' : DB) (pid : Nat) :
      Reachable db → deletePerformance db pid = Except.ok db' → Reachable db'
  | reservation (db db' : DB) (caller : Nat) (req : ReservationRequest) :
      Reachable db → createReservation db caller req = Except.ok db' → Reachable db'

/-- No two persisted tickets book the same `(performance, row, seat)`. -/
def TicketsUnique (db : DB) : Prop :=
  db.tickets.Pairwise (fun a b => Ticket.collidesWith a b = false)

/-- A persisted ticket's coordinates lie inside its performance's hall. -/
def ticketInBounds (db : DB) (t : Ticket) : Bool :=
  match findPerformance db t.performance_id with
  | none => false
  | some p =>
      match findHall db p.theatre_hall_id with
      | none => false
      | some h =>
          decide (1 ≤ t.row) && decide (t.row ≤ h.rows) &&
          decide (1 ≤ t.seat) && decide (t.seat ≤ h.seats_in_row)

def TicketsInBounds (db : DB) : Prop :=
  ∀ t ∈ db.tickets, ticketInBounds db t = true

def HallsPositive (db : DB) : Prop :=
  ∀ h ∈ db.halls, 0 < h.rows ∧ 0 < h.seats_in_row

def PerfIdsNodup (db : DB) : Prop :=
  (db.performances.map Performance.id).Nodup

/-- Referential integrity of the performance table: both foreign keys of every
performance resolve (Django's FKs are non-null and enforced). -/
def FkOk (db : DB) : Prop :=
  ∀ p ∈ db.performances,
    (findPlay db p.play_id).isSome = true ∧ (findHall db p.theatre_hall_id).isSome = true

instance (db : DB) : Decidable (TicketsUnique db) := by
  unfold TicketsUnique; infer_instance

instance (db : DB) : Decidable (TicketsInBounds db) := by
  unfold TicketsInBounds; infer_instance

instance (db : DB) : Decidable (HallsPositive db) := by
  unfold HallsPositive; infer_instance

instance (db : DB) : Decidable (PerfIdsNodup db) := by
  unfold PerfIdsNodup; infer_instance

instance (db : DB) : Decidable (FkOk db) := by
  unfold FkOk; infer_instance

/-- A small populated store used to instantiate the theorems: one 2×3 hall,
two plays, two performances, and one existing ticket at seat (1,1) of
performance 1, owned by user 1. -/
def exDb : DB :=
  { halls := [⟨1, "Main", 2, 3⟩],
    genres := [⟨1, "Drama"⟩, ⟨2, "Comedy"⟩],
    actors := [⟨1, "Anne", "Smith"⟩],
    plays := [⟨1, "Hamlet", "d", [1], [1]⟩, ⟨2, "Macbeth", "d", [1, 2], []⟩],
    performances := [⟨1, 1, 1, ⟨⟨2024, 5, 1⟩, 600⟩⟩, ⟨2, 2, 1, ⟨⟨2024, 5, 2⟩, 600⟩⟩],
    reservations := [⟨1, 1⟩],
    tickets := [⟨0, 1, 1, 1, 1⟩] }

/-! ### Basic lemmas about the query layer -/

theorem annotatePerformance_eq {db : DB} {p : Performance} {a : AnnotatedPerformance}
    (h : annotatePerformance db p = some a) :
    a.performance = p ∧ a.play ∈ db.plays ∧ findHall db p.theatre_hall_id = some a.hall ∧
      a.tickets_available =
        a.hall.rows * a.hall.seats_in_row - (countTickets db p.id : Int) := by
  unfold annotatePerformance at h
  cases hpl : findPlay db p.play_id with
  | none => rw [hpl] at h; simp at h
  | some play =>
      cases hh : findHall db p.theatre_hall_id with
      | none => rw [hpl, hh] at h; simp at h
      | some hall =>
          rw [hpl, hh] at h
          cases h
          exact ⟨rfl, List.mem_of_find?_eq_some hpl, rfl, rfl⟩

theorem mem_performancesFiltered {db : DB} {d? : Option Date} {p? : Option Int}
    {q : Performance} :
    q ∈ performancesFiltered db d? p? ↔
      q ∈ db.performances ∧ (∀ d ∈ d?, q.show_time.date = d) ∧
        (∀ pid ∈ p?, (q.play_id : Int) = pid) := by
  unfold performancesFiltered
  rcases d? with _ | d <;> rcases p? with _ | pid <;>
    simp [List.mem_filter, and_assoc, and_comm]

theorem mem_performancesQueryset {db : DB} {d? : Option Date} {p? : Option Int}
    {a : AnnotatedPerformance} (h : a ∈ performancesQueryset db d? p?) :
    ∃ p ∈ db.performances, annotatePerformance db p = some a := by
  unfold performancesQueryset at h
  rw [List.mem_filterMap] at h
  obtain ⟨p, hp, hann⟩ := h
  exact ⟨p, (mem_performancesFiltered.mp hp).1, hann⟩

theorem mem_joinGenres {l : List Play} {ids : List Int} {p : Play} :
    p ∈ joinGenres l ids ↔ p ∈ l ∧ ∃ g ∈ p.genres, (g : Int) ∈ ids := by
  unfold joinGenres
  rw [List.mem_flatMap]
  constructor
  · intro h
    obtain ⟨q, hq, hm⟩ := h
    rw [List.mem_map] at hm
    obtain ⟨g, hgf, hpq⟩ := hm
    subst hpq
    rw [List.mem_filter, decide_eq_true_iff] at hgf
    exact ⟨hq, g, hgf.1, hgf.2⟩
  · rintro ⟨hp, g, hg, hgi⟩
    refine ⟨p, hp, ?_⟩
    rw [List.mem_map]
    exact ⟨g, List.mem_filter.mpr ⟨hg, decide_eq_true hgi⟩, rfl⟩

theorem mem_joinActors {l : List Play} {ids : List Int} {p : Play} :
    p ∈ joinActors l ids ↔ p ∈ l ∧ ∃ x ∈ p.actors, (x : Int) ∈ ids := by
  unfold joinActors
  rw [List.mem_flatMap]
  constructor
  · intro h
    obtain ⟨q, hq, hm⟩ := h
    rw [List.mem_map] at hm
    obtain ⟨x, hxf, hpq⟩ := hm
    subst hpq
    rw [List.mem_filter, decide_eq_true_iff] at hxf
    exact ⟨hq, x, hxf.1, hxf.2⟩
  · rintro ⟨hp, x, hx, hxi⟩
    refine ⟨p, hp, ?_⟩
    rw [List.mem_map]
    exact ⟨x, List.mem_filter.mpr ⟨hx, decide_eq_true hxi⟩, rfl⟩

instance titleLeTotal : IsTotal Play (fun a b => a.title ≤ b.title) :=
  ⟨fun a b => le_total a.title b.title⟩

instance titleLeTrans : IsTrans Play (fun a b => a.title ≤ b.title) :=
  ⟨fun _ _ _ h1 h2 => le_trans h1 h2⟩

theorem mem_playsQueryset {db : DB} {t? : Option String} {g? a? : Option (List Int)}
    {p : Play} :
    p ∈ playsQueryset db t? g? a? ↔
      p ∈ db.plays ∧ (∀ t ∈ t?, icontains p.title t = true) ∧
        (∀ ids ∈ g?, ∃ g ∈ p.genres, (g : Int) ∈ ids) ∧
        (∀ ids ∈ a?, ∃ x ∈ p.actors, (x : Int) ∈ ids) := by
  unfold playsQueryset
  rw [List.mem_insertionSort, List.mem_dedup]
  rcases t? with _ | t <;> rcases g? with _ | gids <;> rcases a? with _ | aids <;>
    simp [mem_joinGenres, mem_joinActors, List.mem_filter, and_assoc]

/-- C1: every performance row returned by `listPerformances` (any filter
combination) or by `getPerformance` carries
`tickets_available = theatre_hall.rows * theatre_hall.seats_in_row` minus the
number of persisted tickets referencing that performance, computed at read
time from the ticket table. -/
theorem c1_tickets_available_from_ticket_table (db : DB) :
    (∀ (d? : Option Date) (p? : Option Int), ∀ a ∈ performancesQueryset db d? p?,
        a.tickets_available =
          a.hall.rows * a.hall.seats_in_row - (countTickets db a.performance.id : Int)) ∧
    (∀ (pid : Nat) (a : AnnotatedPerformance), getPerformance db pid = Except.ok a →
        a.tickets_available =
          a.hall.rows * a.hall.seats_in_row - (countTickets db a.performance.id : Int)) := by
  have key : ∀ (d? : Option Date) (p? : Option Int), ∀ a ∈ performancesQueryset db d? p?,
      a.tickets_available =
        a.hall.rows * a.hall.seats_in_row - (countTickets db a.performance.id : Int) := by
    intro d? p? a ha
    obtain ⟨p, _, hann⟩ := mem_performancesQueryset ha
    obtain ⟨hperf, _, _, hav⟩ := annotatePerformance_eq hann
    rw [hav, hperf]
  refine ⟨key, ?_⟩
  intro pid a hget
  unfold getPerformance at hget
  cases hfind : (performancesQueryset db none none).find? (fun x => x.performance.id == pid) with
  | none => rw [hfind] at hget; cases hget
  | some b =>
      rw [hfind] at hget
      cases hget
      exact key none none a (List.mem_of_find?_eq_some hfind)

theorem c1_witness :
    (⟨⟨1, 1, 1, ⟨⟨2024, 5, 1⟩, 600⟩⟩, ⟨1, "Hamlet", "d", [1], [1]⟩, ⟨1, "Main", 2, 3⟩,
        5⟩ : AnnotatedPerformance).tickets_available =
      (⟨1, "Main", 2, 3⟩ : TheatreHall).rows *
          (⟨1, "Main", 2, 3⟩ : TheatreHall).seats_in_row -
        (countTickets exDb 1 : Int) :=
  (c1_tickets_available_from_ticket_table exDb).1 none none _ (by decide)

/-- C5: `listReservations` returns only reservations owned by the calling
user; no reservation owned by a different user ever appears. -/
theorem c5_listReservations_only_own (db : DB) (A page : Nat) :
    (∀ r ∈ listReservations db A page, r.user_id = A) ∧
    (∀ B, B ≠ A → ∀ r ∈ listReservations db A page, r.user_id ≠ B) := by
  have hmain : ∀ r ∈ listReservations db A page, r.user_id = A := by
    intro r hr
    unfold listReservations paginate at hr
    have h2 := List.drop_subset _ _ (List.take_subset _ _ hr)
    rw [List.mem_filter] at h2
    simpa using h2.2
  exact ⟨hmain, fun B hBA r hr hrB => hBA (hrB.symm.trans (hmain r hr))⟩

theorem c5_witness : (⟨1, 1⟩ : Reservation).user_id = 1 :=
  (c5_listReservations_only_own exDb 1 1).1 ⟨1, 1⟩ (by decide)

/-- C9: `createHall` rejects non-positive dimensions with a
`ValidationError` (persisting nothing, as the operation returns no new
state), and accepts positive dimensions, persisting exactly the new hall. -/
theorem c9_createHall_validates (db : DB) (n : String) (r s : Int) :
    (r ≤ 0 ∨ s ≤ 0 → failsWithValidationError (createHall db n r s) = true) ∧
    (0 < r → 0 < s →
      createHall db n r s =
        Except.ok { db with halls :=
          db.halls ++ [⟨nextId (db.halls.map TheatreHall.id), n, r, s⟩] }) := by
  unfold createHall
  constructor
  · intro h
    rw [if_pos h]
    rfl
  · intro hr hs
    rw [if_neg (by omega)]

theorem c9_witness :
    failsWithValidationError (createHall exDb "Small" 0 5) = true ∧
      createHall exDb "Annex" 3 4 =
        Except.ok { exDb with halls := exDb.halls ++ [⟨2, "Annex", 3, 4⟩] } :=
  ⟨(c9_createHall_validates exDb "Small" 0 5).1 (Or.inl (by decide)),
   (c9_createHall_validates exDb "Annex" 3 4).2 (by decide) (by decide)⟩

/-- C10: a non-integer token in the `genres` or `actors` parameter of
`listPlays`, and a non-integer `play` or malformed `date` parameter of
`listPerformances`, escape the parsing step (`int(...)` / `strptime`) as an
unhandled exception rather than a `ValidationError` response. -/
theorem c10_malformed_params_raise :
    listPlays exDb none (some "1,x") none = Except.error ApiError.unhandledException ∧
    listPlays exDb none none (some "abc") = Except.error ApiError.unhandledException ∧
    listPerformances exDb (some "not-a-date") none =
      Except.error ApiError.unhandledException ∧
    listPerformances exDb none (some "two") = Except.error ApiError.unhandledException := by
  refine ⟨?_, ?_, ?_, ?_⟩ <;> decide

/-- C7: `listPlays` AND-combines its optional filters — a play is in the
result iff its title contains the title parameter case-insensitively (when
given), it carries at least one requested genre id (when given) and at
least one requested actor id (when given); the result is duplicate-free and
sorted by title ascending. -/
theorem c7_listPlays_filters (db : DB) (t? : Option String) (g? a? : Option (List Int)) :
    (∀ p : Play, p ∈ playsQueryset db t? g? a? ↔
        (p ∈ db.plays ∧ (∀ t ∈ t?, icontains p.title t = true) ∧
          (∀ ids ∈ g?, ∃ g ∈ p.genres, (g : Int) ∈ ids) ∧
          (∀ ids ∈ a?, ∃ x ∈ p.actors, (x : Int) ∈ ids))) ∧
    (playsQueryset db t? g? a?).Nodup ∧
    (playsQueryset db t? g? a?).Pairwise (fun a b => a.title ≤ b.title) := by
  refine ⟨fun p => mem_playsQueryset, ?_, ?_⟩
  · unfold playsQueryset
    exact (List.perm_insertionSort _ _).nodup_iff.mpr (List.nodup_dedup _)
  · unfold playsQueryset
    exact List.sorted_insertionSort _ _

theorem c7_witness :
    (⟨1, "Hamlet", "d", [1], [1]⟩ : Play) ∈ exDb.plays ∧
      (∀ t ∈ (some "ham" : Option String),
        icontains (⟨1, "Hamlet", "d", [1], [1]⟩ : Play).title t = true) ∧
      (∀ ids ∈ (none : Option (List Int)),
        ∃ g ∈ (⟨1, "Hamlet", "d", [1], [1]⟩ : Play).genres, (g : Int) ∈ ids) ∧
      (∀ ids ∈ (none : Option (List Int)),
        ∃ x ∈ (⟨1, "Hamlet", "d", [1], [1]⟩ : Play).actors, (x : Int) ∈ ids) :=
  ((c7_listPlays_filters exDb (some "ham") none none).1 _).mp (by decide)

/-- C8: `listPerformances` AND-combines its optional filters — assuming
referential integrity of the performance table, a performance appears in the
result iff its `show_time` calendar date equals the date parameter (when
given) and its play id equals the play parameter (when given); with no
parameters every performance is returned. -/
theorem c8_listPerformances_filters (db : DB) (d? : Option Date) (p? : Option Int)
    (hfk : FkOk db) (q : Performance) :
    (∃ a ∈ performancesQueryset db d? p?, a.performance = q) ↔
      (q ∈ db.performances ∧ (∀ d ∈ d?, q.show_time.date = d) ∧
        (∀ pid ∈ p?, (q.play_id : Int) = pid)) := by
  constructor
  · rintro ⟨a, ha, rfl⟩
    unfold performancesQueryset at ha
    rw [List.mem_filterMap] at ha
    obtain ⟨p, hp, hann⟩ := ha
    rw [(annotatePerformance_eq hann).1]
    exact mem_performancesFiltered.mp hp
  · rintro ⟨hq, hd, hp⟩
    obtain ⟨pl, hpl⟩ := Option.isSome_iff_exists.mp (hfk q hq).1
    obtain ⟨hl, hhl⟩ := Option.isSome_iff_exists.mp (hfk q hq).2
    refine ⟨⟨q, pl, hl, hl.rows * hl.seats_in_row - (countTickets db q.id : Int)⟩, ?_, rfl⟩
    unfold performancesQueryset
    rw [List.mem_filterMap]
    refine ⟨q, mem_performancesFiltered.mpr ⟨hq, hd, hp⟩, ?_⟩
    unfold annotatePerformance
    rw [hpl, hhl]

theorem c8_witness :
    (⟨1, 1, 1, ⟨⟨2024, 5, 1⟩, 600⟩⟩ : Performance) ∈ exDb.performances ∧
      (∀ d ∈ (some (⟨2024, 5, 1⟩ : Date) : Option Date),
        (⟨1, 1, 1, ⟨⟨2024, 5, 1⟩, 600⟩⟩ : Performance).show_time.date = d) ∧
      (∀ pid ∈ (none : Option Int),
        ((⟨1, 1, 1, ⟨⟨2024, 5, 1⟩, 600⟩⟩ : Performance).play_id : Int) = pid) :=
  (c8_listPerformances_filters exDb (some ⟨2024, 5, 1⟩) none (by decide) _).mp (by decide)

/-! ### Lemmas about ticket insertion and the reservation transaction -/

theorem insertTicket_ok_shape {db : DB} {rid : Nat} {t : TicketRequest} {db' : DB}
    (h : insertTicket db rid t = Except.ok db') :
    db' = { db with tickets :=
        db.tickets ++ [⟨db.tickets.length, t.row, t.seat, t.performance_id, rid⟩] } ∧
    (∃ p, findPerformance db t.performance_id = some p ∧
      ∃ hl, findHall db p.theatre_hall_id = some hl ∧
        1 ≤ t.row ∧ t.row ≤ hl.rows ∧ 1 ≤ t.seat ∧ t.seat ≤ hl.seats_in_row) ∧
    (∀ u ∈ db.tickets,
      Ticket.collidesWith u ⟨db.tickets.length, t.row, t.seat, t.performance_id, rid⟩ = false) := by
  unfold insertTicket at h
  rcases hfp : findPerformance db t.performance_id with _ | p
  · rw [hfp] at h; simp at h
  rw [hfp] at h
  simp only [] at h
  rcases hfh : findHall db p.theatre_hall_id with _ | hl
  · rw [hfh] at h; simp at h
  rw [hfh] at h
  simp only [] at h
  split_ifs at h with h1 h2 h3
  rw [Except.ok.injEq] at h
  exact ⟨h.symm, ⟨p, rfl, hl, hfh, by omega, by omega, by omega, by omega⟩,
    fun u hu => by simpa using List.any_eq_false.mp (by simpa using h3) u hu⟩

theorem insertTicket_error_shape {db : DB} {rid : Nat} {t : TicketRequest} {e : ApiError}
    (h : insertTicket db rid t = Except.error e) : ∃ m, e = ApiError.validationError m := by
  unfold insertTicket at h
  rcases hfp : findPerformance db t.performance_id with _ | p
  · rw [hfp] at h; simp only [] at h
    exact ⟨_, (Except.error.injEq _ _).mp h.symm⟩
  rw [hfp] at h
  simp only [] at h
  rcases hfh : findHall db p.theatre_hall_id with _ | hl
  · rw [hfh] at h; simp only [] at h
    exact ⟨_, (Except.error.injEq _ _).mp h.symm⟩
  rw [hfh] at h
  simp only [] at h
  split_ifs at h <;>
    exact ⟨_, (Except.error.injEq _ _).mp h.symm⟩

theorem insertTickets_ok_shape :
    ∀ (l : List TicketRequest) (db db' : DB) (rid : Nat),
      insertTickets rid db l = Except.ok db' →
      db' = { db with tickets := db.tickets ++ requestRows rid db.tickets.length l } := by
  intro l
  induction l with
  | nil =>
      intro db db' rid h
      unfold insertTickets at h
      rw [Except.ok.injEq] at h
      subst h
      show db = { db with tickets := db.tickets ++ requestRows rid db.tickets.length [] }
      simp [requestRows]
  | cons t rest ih =>
      intro db db' rid h
      unfold insertTickets at h
      rcases hstep : insertTicket db rid t with e | db1
      · rw [hstep] at h; simp at h
      rw [hstep] at h
      simp only [] at h
      have hshape := (insertTicket_ok_shape hstep).1
      have hrec := ih db1 db' rid h
      subst hshape
      rw [hrec]
      show _ = ({ db with tickets := db.tickets ++ requestRows rid db.tickets.length (t :: rest) } : DB)
      simp [requestRows, List.length_append]

theorem insertTickets_error_shape :
    ∀ (l : List TicketRequest) (db : DB) (rid : Nat) (e : ApiError),
      insertTickets rid db l = Except.error e → ∃ m, e = ApiError.validationError m := by
  intro l
  induction l with
  | nil =>
      intro db rid e h
      unfold insertTickets at h
      simp at h
  | cons t rest ih =>
      intro db rid e h
      unfold insertTickets at h
      rcases hstep : insertTicket db rid t with e1 | db1
      · rw [hstep] at h
        simp only [] at h
        rw [Except.error.injEq] at h
        subst h
        exact insertTicket_error_shape hstep
      · rw [hstep] at h
        simp only [] at h
        exact ih db1 rid e h

theorem insertTickets_no_collision :
    ∀ (l : List TicketRequest) (db db' : DB) (rid : Nat),
      insertTickets rid db l = Except.ok db' →
      ∀ t ∈ l, ∀ u ∈ db.tickets,
        ¬(u.performance_id = t.performance_id ∧ u.row = t.row ∧ u.seat = t.seat) := by
  intro l
  induction l with
  | nil =>
      intro db db' rid _ t ht
      cases ht
  | cons t0 rest ih =>
      intro db db' rid h t ht u hu hcoll
      unfold insertTickets at h
      rcases hstep : insertTicket db rid t0 with e | db1
      · rw [hstep] at h; simp at h
      rw [hstep] at h
      simp only [] at h
      obtain ⟨hshape, _, hnocoll⟩ := insertTicket_ok_shape hstep
      rcases List.mem_cons.mp ht with rfl | htr
      · have h5 := hnocoll u hu
        unfold Ticket.collidesWith at h5
        simp [hcoll.1, hcoll.2.1, hcoll.2.2] at h5
      · have hu1 : u ∈ db1.tickets := by
          rw [hshape]
          exact List.mem_append_left _ hu
        exact ih db1 db' rid h t htr u hu1 hcoll

theorem insertTickets_unique :
    ∀ (l : List TicketRequest) (db db' : DB) (rid : Nat),
      TicketsUnique db → insertTickets rid db l = Except.ok db' → TicketsUnique db' := by
  intro l
  induction l with
  | nil =>
      intro db db' rid hU h
      unfold insertTickets at h
      rw [Except.ok.injEq] at h
      subst h
      exact hU
  | cons t rest ih =>
      intro db db' rid hU h
      unfold insertTickets at h
      rcases hstep : insertTicket db rid t with e | db1
      · rw [hstep] at h; simp at h
      rw [hstep] at h
      simp only [] at h
      obtain ⟨hshape, _, hnocoll⟩ := insertTicket_ok_shape hstep
      refine ih db1 db' rid ?_ h
      show TicketsUnique db1
      unfold TicketsUnique
      rw [hshape]
      rw [List.pairwise_append]
      refine ⟨hU, List.pairwise_singleton _ _, ?_⟩
      intro a ha b hb
      rw [List.mem_singleton] at hb
      subst hb
      exact hnocoll a ha

theorem insertTickets_bounds :
    ∀ (l : List TicketRequest) (db db' : DB) (rid : Nat),
      TicketsInBounds db → insertTickets rid db l = Except.ok db' → TicketsInBounds db' := by
  intro l
  induction l with
  | nil =>
      intro db db' rid hB h
      unfold insertTickets at h
      rw [Except.ok.injEq] at h
      subst h
      exact hB
  | cons t rest ih =>
      intro db db' rid hB h
      unfold insertTickets at h
      rcases hstep : insertTicket db rid t with e | db1
      · rw [hstep] at h; simp at h
      rw [hstep] at h
      simp only [] at h
      obtain ⟨hshape, ⟨p, hfp, hl, hfh, hb1, hb2, hb3, hb4⟩, _⟩ := insertTicket_ok_shape hstep
      refine ih db1 db' rid ?_ h
      intro u hu
      rw [hshape] at hu
      have hmem : u ∈ db.tickets ++
          [(⟨db.tickets.length, t.row, t.seat, t.performance_id, rid⟩ : Ticket)] := hu
      rw [hshape]
      rcases List.mem_append.mp hmem with hold | hnew
      · show ticketInBounds db u = true
        exact hB u hold
      · rw [List.mem_singleton] at hnew
        subst hnew
        show ticketInBounds db _ = true
        unfold ticketInBounds
        rw [show (⟨db.tickets.length, t.row, t.seat, t.performance_id, rid⟩ : Ticket).performance_id
              = t.performance_id from rfl]
        rw [hfp]
        simp only []
        rw [hfh]
        simp only [Bool.and_eq_true, decide_eq_true_eq]
        exact ⟨⟨⟨hb1, hb2⟩, hb3⟩, hb4⟩

theorem createReservation_ok_shape {db : DB} {c : Nat} {req : ReservationRequest} {db' : DB}
    (h : createReservation db c req = Except.ok db') :
    db' = reservationSuccessState db c req := by
  simp only [createReservation] at h
  rcases hins : insertTickets (nextId (db.reservations.map Reservation.id))
      { db with reservations :=
          db.reservations ++ [⟨nextId (db.reservations.map Reservation.id), c⟩] }
      req.tickets with e | db2
  · rw [hins] at h; simp at h
  rw [hins] at h
  simp only [] at h
  rw [Except.ok.injEq] at h
  subst h
  have h6 := insertTickets_ok_shape req.tickets _ _ _ hins
  rw [h6]
  rfl

theorem createReservation_error_shape {db : DB} {c : Nat} {req : ReservationRequest}
    {e : ApiError} (h : createReservation db c req = Except.error e) :
    ∃ m, e = ApiError.validationError m := by
  simp only [createReservation] at h
  rcases hins : insertTickets (nextId (db.reservations.map Reservation.id))
      { db with reservations :=
          db.reservations ++ [⟨nextId (db.reservations.map Reservation.id), c⟩] }
      req.tickets with e1 | db2
  · rw [hins] at h
    simp only [] at h
    rw [Except.error.injEq] at h
    subst h
    exact insertTickets_error_shape req.tickets _ _ _ hins
  · rw [hins] at h; simp at h

theorem createReservation_unique {db db' : DB} {c : Nat} {req : ReservationRequest}
    (hU : TicketsUnique db) (h : createReservation db c req = Except.ok db') :
    TicketsUnique db' := by
  simp only [createReservation] at h
  rcases hins : insertTickets (nextId (db.reservations.map Reservation.id))
      { db with reservations :=
          db.reservations ++ [⟨nextId (db.reservations.map Reservation.id), c⟩] }
      req.tickets with e | db2
  · rw [hins] at h; simp at h
  rw [hins] at h
  simp only [] at h
  rw [Except.ok.injEq] at h
  subst h
  refine insertTickets_unique req.tickets _ _ _ ?_ hins
  show TicketsUnique
    { db with reservations :=
        db.reservations ++ [⟨nextId (db.reservations.map Reservation.id), c⟩] }
  exact hU

theorem createReservation_bounds {db db' : DB} {c : Nat} {req : ReservationRequest}
    (hB : TicketsInBounds db) (h : createReservation db c req = Except.ok db') :
    TicketsInBounds db' := by
  simp only [createReservation] at h
  rcases hins : insertTickets (nextId (db.reservations.map Reservation.id))
      { db with reservations :=
          db.reservations ++ [⟨nextId (db.reservations.map Reservation.id), c⟩] }
      req.tickets with e | db2
  · rw [hins] at h; simp at h
  rw [hins] at h
  simp only [] at h
  rw [Except.ok.injEq] at h
  subst h
  refine insertTickets_bounds req.tickets _ _ _ ?_ hins
  show TicketsInBounds
    { db with reservations :=
        db.reservations ++ [⟨nextId (db.reservations.map Reservation.id), c⟩] }
  exact hB

/-! ### The pigeonhole bound: unique in-bounds tickets never exceed capacity -/

theorem find_self_of_nodup {p : Performance} :
    ∀ {l : List Performance}, (l.map Performance.id).Nodup → p ∈ l →
      l.find? (fun q => q.id == p.id) = some p := by
  intro l
  induction l with
  | nil => intro _ hp; cases hp
  | cons q rest ih =>
      intro hnd hp
      rw [List.map_cons, List.nodup_cons] at hnd
      rcases List.mem_cons.mp hp with rfl | hpr
      · rw [List.find?_cons_of_pos _ (by simp)]
      · have hne : (q.id == p.id) = false := by
          rw [beq_eq_false_iff_ne]
          intro hqp
          exact hnd.1 (hqp ▸ List.mem_map_of_mem Performance.id hpr)
        rw [List.find?_cons_of_neg _ (by simp [hne])]
        exact ih hnd.2 hpr

theorem findPerformance_self {db : DB} {p : Performance} (h3 : PerfIdsNodup db)
    (hp : p ∈ db.performances) : findPerformance db p.id = some p :=
  find_self_of_nodup h3 hp

theorem coords_card_le {R S : Int} (hR : 0 ≤ R) (hS : 0 ≤ S) :
    ∀ (l : List (Int × Int)), l.Nodup →
      (∀ x ∈ l, 1 ≤ x.1 ∧ x.1 ≤ R ∧ 1 ≤ x.2 ∧ x.2 ≤ S) →
      (l.length : Int) ≤ R * S := by
  intro l hnd hbound
  have hsub : l.toFinset ⊆ Finset.Icc (1 : Int) R ×ˢ Finset.Icc (1 : Int) S := by
    intro x hx
    rw [List.mem_toFinset] at hx
    obtain ⟨hx1, hx2, hx3, hx4⟩ := hbound x hx
    rw [Finset.mem_product, Finset.mem_Icc, Finset.mem_Icc]
    exact ⟨⟨hx1, hx2⟩, hx3, hx4⟩
  have hcard := Finset.card_le_card hsub
  rw [List.toFinset_card_of_nodup hnd] at hcard
  rw [Finset.card_product, Int.card_Icc, Int.card_Icc] at hcard
  have e1 : ((R + 1 - 1).toNat : Int) = R := by omega
  have e2 : ((S + 1 - 1).toNat : Int) = S := by omega
  calc (l.length : Int) ≤ ((R + 1 - 1).toNat * (S + 1 - 1).toNat : Nat) := by
        exact_mod_cast hcard
    _ = ((R + 1 - 1).toNat : Int) * ((S + 1 - 1).toNat : Int) := by push_cast; ring
    _ = R * S := by rw [e1, e2]

theorem count_le_capacity {db : DB} (h1 : TicketsUnique db) (h2 : TicketsInBounds db)
    (h3 : PerfIdsNodup db) {p : Performance} (hp : p ∈ db.performances)
    {hl : TheatreHall} (hh : findHall db p.theatre_hall_id = some hl)
    (hrows : 0 < hl.rows) (hseats : 0 < hl.seats_in_row) :
    (countTickets db p.id : Int) ≤ hl.rows * hl.seats_in_row := by
  unfold countTickets
  set T := db.tickets.filter (fun t => t.performance_id == p.id) with hT
  have hTmem : ∀ t ∈ T, t ∈ db.tickets ∧ t.performance_id = p.id := by
    intro t ht
    rw [hT, List.mem_filter] at ht
    exact ⟨ht.1, by simpa using ht.2⟩
  have hTb : ∀ t ∈ T, 1 ≤ t.row ∧ t.row ≤ hl.rows ∧ 1 ≤ t.seat ∧ t.seat ≤ hl.seats_in_row := by
    intro t ht
    obtain ⟨htm, htp⟩ := hTmem t ht
    have hb := h2 t htm
    unfold ticketInBounds at hb
    rw [htp, findPerformance_self h3 hp] at hb
    simp only [] at hb
    rw [hh] at hb
    simp only [Bool.and_eq_true, decide_eq_true_eq] at hb
    exact ⟨hb.1.1.1, hb.1.1.2, hb.1.2, hb.2⟩
  have hpw : T.Pairwise (fun a b => Ticket.collidesWith a b = false) :=
    List.Pairwise.sublist (List.filter_sublist _) h1
  have hpw2 : T.Pairwise (fun a b => (a.row, a.seat) ≠ (b.row, b.seat)) := by
    refine List.Pairwise.imp_of_mem ?_ hpw
    intro a b ha hb hcol heq
    obtain ⟨-, hap⟩ := hTmem a ha
    obtain ⟨-, hbp⟩ := hTmem b hb
    rw [Prod.mk.injEq] at heq
    unfold Ticket.collidesWith at hcol
    rw [hap, hbp, heq.1, heq.2] at hcol
    simp at hcol
  have hnd : (T.map (fun t => (t.row, t.seat))).Nodup :=
    List.pairwise_map.mpr hpw2
  have hcl := coords_card_le hrows.le hseats.le (T.map (fun t => (t.row, t.seat))) hnd ?_
  · rw [List.length_map] at hcl
    exact hcl
  · intro x hx
    rw [List.mem_map] at hx
    obtain ⟨t, ht, rfl⟩ := hx
    exact hTb t ht

theorem availability_nonneg_of_inv {db : DB} (h1 : TicketsUnique db)
    (h2 : TicketsInBounds db) (h3 : PerfIdsNodup db) (h4 : HallsPositive db)
    (d? : Option Date) (p? : Option Int) :
    ∀ a ∈ performancesQueryset db d? p?, 0 ≤ a.tickets_available := by
  intro a ha
  obtain ⟨p, hp, hann⟩ := mem_performancesQueryset ha
  obtain ⟨hperf, hplay, hhall, hav⟩ := annotatePerformance_eq hann
  have hmem := List.mem_of_find?_eq_some hhall
  obtain ⟨hr, hs⟩ := h4 _ hmem
  have hle := count_le_capacity h1 h2 h3 hp hhall hr hs
  rw [hav]
  linarith [hle]

/-! ### Lemmas for the other write operations (they leave tickets unchanged) -/

theorem createGenre_tickets {db db' : DB} {n : String}
    (h : createGenre db n = Except.ok db') : db'.tickets = db.tickets := by
  unfold createGenre at h
  split_ifs at h
  rw [Except.ok.injEq] at h
  subst h
  rfl

theorem createActor_tickets {db db' : DB} {fn ln : String}
    (h : createActor db fn ln = Except.ok db') : db'.tickets = db.tickets := by
  unfold createActor at h
  rw [Except.ok.injEq] at h
  subst h
  rfl

theorem createHall_tickets {db db' : DB} {n : String} {r s : Int}
    (h : createHall db n r s = Except.ok db') : db'.tickets = db.tickets := by
  unfold createHall at h
  split_ifs at h
  rw [Except.ok.injEq] at h
  subst h
  rfl

theorem createPlay_tickets {db db' : DB} {t d : String} {gs as : List Nat}
    (h : createPlay db t d gs as = Except.ok db') : db'.tickets = db.tickets := by
  unfold createPlay at h
  split_ifs at h
  rw [Except.ok.injEq] at h
  subst h
  rfl

theorem updatePlay_tickets {db db' : DB} {pid : Nat} {t d : String} {gs as : List Nat}
    (h : updatePlay db pid t d gs as = Except.ok db') : db'.tickets = db.tickets := by
  unfold updatePlay at h
  rcases hf : findPlay db pid with _ | q
  · rw [hf] at h; simp at h
  rw [hf] at h
  simp only [] at h
  split_ifs at h
  rw [Except.ok.injEq] at h
  subst h
  rfl

theorem createPerformance_tickets {db db' : DB} {pl hl : Nat} {st : DateTime}
    (h : createPerformance db pl hl st = Except.ok db') : db'.tickets = db.tickets := by
  unfold createPerformance at h
  rcases hf : findPlay db pl with _ | q
  · rw [hf] at h; simp at h
  rw [hf] at h
  rcases hg : findHall db hl with _ | w
  · rw [hg] at h; simp at h
  rw [hg] at h
  simp only [] at h
  rw [Except.ok.injEq] at h
  subst h
  rfl

theorem updatePerformance_tickets {db db' : DB} {pid pl hl : Nat} {st : DateTime}
    (h : updatePerformance db pid pl hl st = Except.ok db') : db'.tickets = db.tickets := by
  unfold updatePerformance at h
  rcases hf : findPerformance db pid with _ | q
  · rw [hf] at h; simp at h
  rw [hf] at h
  simp only [] at h
  rcases hp : findPlay db pl with _ | q1
  · rw [hp] at h; simp at h
  rw [hp] at h
  rcases hg : findHall db hl with _ | w
  · rw [hg] at h; simp at h
  rw [hg] at h
  simp only [] at h
  rw [Except.ok.injEq] at h
  subst h
  rfl

theorem deletePerformance_tickets {db db' : DB} {pid : Nat}
    (h : deletePerformance db pid = Except.ok db') :
    db'.tickets = db.tickets.filter (fun t => !(t.performance_id == pid)) := by
  unfold deletePerformance at h
  split_ifs at h
  rw [Except.ok.injEq] at h
  subst h
  rfl

/-- C2: in every state reachable through the exposed operations, no two
persisted tickets share a `(performance, row, seat)` triple, and a
reservation request containing a ticket whose coordinates are already taken
for the same performance fails with a `ValidationError`. -/
theorem c2_no_double_booking :
    (∀ db, Reachable db → TicketsUnique db) ∧
    (∀ (db : DB) (c : Nat) (req : ReservationRequest),
      (∃ t ∈ req.tickets, ∃ u ∈ db.tickets,
        u.performance_id = t.performance_id ∧ u.row = t.row ∧ u.seat = t.seat) →
      failsWithValidationError (createReservation db c req) = true) := by
  constructor
  · intro db hreach
    induction hreach with
    | empty => exact List.Pairwise.nil
    | genre db0 db'0 n hr hok ih =>
        unfold TicketsUnique
        rw [createGenre_tickets hok]
        exact ih
    | actor db0 db'0 fn ln hr hok ih =>
        unfold TicketsUnique
        rw [createActor_tickets hok]
        exact ih
    | hall db0 db'0 n r s hr hok ih =>
        unfold TicketsUnique
        rw [createHall_tickets hok]
        exact ih
    | play db0 db'0 t d gs as hr hok ih =>
        unfold TicketsUnique
        rw [createPlay_tickets hok]
        exact ih
    | playUpd db0 db'0 pid t d gs as hr hok ih =>
        unfold TicketsUnique
        rw [updatePlay_tickets hok]
        exact ih
    | performance db0 db'0 pl hl st hr hok ih =>
        unfold TicketsUnique
        rw [createPerformance_tickets hok]
        exact ih
    | performanceUpd db0 db'0 pid pl hl st hr hok ih =>
        unfold TicketsUnique
        rw [updatePerformance_tickets hok]
        exact ih
    | performanceDel db0 db'0 pid hr hok ih =>
        unfold TicketsUnique
        rw [deletePerformance_tickets hok]
        exact List.Pairwise.sublist (List.filter_sublist _) ih
    | reservation db0 db'0 caller req hr hok ih =>
        exact createReservation_unique ih hok
  · intro db c req hcol
    rcases hres : createReservation db c req with e | db2
    · obtain ⟨m, rfl⟩ := createReservation_error_shape hres
      rfl
    · exfalso
      obtain ⟨t, ht, u, hu, hcoords⟩ := hcol
      simp only [createReservation] at hres
      rcases hins : insertTickets (nextId (db.reservations.map Reservation.id))
          { db with reservations :=
              db.reservations ++ [⟨nextId (db.reservations.map Reservation.id), c⟩] }
          req.tickets with e1 | db3
      · rw [hins] at hres; simp at hres
      exact insertTickets_no_collision req.tickets _ _ _ hins t ht u hu hcoords

theorem c2_witness :
    TicketsUnique emptyDB ∧
      failsWithValidationError (createReservation exDb 2 ⟨none, [⟨1, 1, 1⟩]⟩) = true :=
  ⟨c2_no_double_booking.1 emptyDB Reachable.empty,
   c2_no_double_booking.2 exDb 2 ⟨none, [⟨1, 1, 1⟩]⟩ (by decide)⟩

/-- C3: `createReservation` is atomic — every request either succeeds,
persisting the reservation together with all of its tickets
(`reservationSuccessState`), or fails with a `ValidationError`, in which case
the operation returns no new store and the previous state stands. -/
theorem c3_createReservation_atomic (db : DB) (c : Nat) (req : ReservationRequest) :
    createReservation db c req = Except.ok (reservationSuccessState db c req) ∨
    failsWithValidationError (createReservation db c req) = true := by
  rcases hres : createReservation db c req with e | db2
  · right
    obtain ⟨m, rfl⟩ := createReservation_error_shape hres
    rfl
  · left
    rw [← createReservation_ok_shape hres]

/-- C4, amended: after every successful ticket creation from a store whose
persisted tickets all lie within their performance's hall bounds (together
with ticket uniqueness, positive hall dimensions and unique performance
ids), every performance row any read returns has `tickets_available ≥ 0`;
no separate counter is involved, the bound follows from uniqueness plus
seat bounds alone.  The bounds premise cannot be dropped: ticket creation
preserves it, but `updatePerformance` may re-point a sold performance to a
smaller hall without re-validating its tickets, after which the claim as
originally stated fails (`c4_counterexample`). -/
theorem c4_availability_nonneg (db : DB) (c : Nat) (req : ReservationRequest) (db' : DB)
    (h1 : TicketsUnique db) (h2 : TicketsInBounds db) (h3 : PerfIdsNodup db)
    (h4 : HallsPositive db) (hok : createReservation db c req = Except.ok db')
    (d? : Option Date) (p? : Option Int) :
    ∀ a ∈ performancesQueryset db' d? p?, 0 ≤ a.tickets_available := by
  have hU' := createReservation_unique h1 hok
  have hB' := createReservation_bounds h2 hok
  have hshape := createReservation_ok_shape hok
  have h3' : PerfIdsNodup db' := by
    unfold PerfIdsNodup
    rw [hshape]
    exact h3
  have h4' : HallsPositive db' := by
    unfold HallsPositive
    rw [hshape]
    exact h4
  exact availability_nonneg_of_inv hU' hB' h3' h4' d? p?

theorem c4_witness :
    0 ≤ (⟨⟨1, 1, 1, ⟨⟨2024, 5, 1⟩, 600⟩⟩, ⟨1, "Hamlet", "d", [1], [1]⟩, ⟨1, "Main", 2, 3⟩,
        4⟩ : AnnotatedPerformance).tickets_available :=
  c4_availability_nonneg exDb 2 ⟨none, [⟨1, 1, 2⟩]⟩
    { exDb with reservations := exDb.reservations ++ [⟨2, 2⟩],
                tickets := exDb.tickets ++ [⟨1, 1, 2, 1, 2⟩] }
    (by decide) (by decide) (by decide) (by decide) (by decide) none none _ (by decide)

/-! The states refuting C4 as originally stated: a 2×3 hall's performance is
sold out, then `updatePerformance` re-points it to a 1×1 hall (the update
validates only that the foreign references exist), and one further ticket
creation on a second performance succeeds while the moved performance reads
back `tickets_available = 1*1 - 6 = -5`. -/

def hallBig : TheatreHall := ⟨1, "Big", 2, 3⟩

def hallTiny : TheatreHall := ⟨2, "Tiny", 1, 1⟩

def playT : Play := ⟨1, "T", "d", [], []⟩

def stA : DateTime := ⟨⟨2024, 5, 1⟩, 600⟩

def stB : DateTime := ⟨⟨2024, 5, 2⟩, 600⟩

/-- The six tickets filling every seat of the 2×3 hall for performance 1. -/
def soldOut : List Ticket :=
  [⟨0, 1, 1, 1, 1⟩, ⟨1, 1, 2, 1, 1⟩, ⟨2, 1, 3, 1, 1⟩,
   ⟨3, 2, 1, 1, 1⟩, ⟨4, 2, 2, 1, 1⟩, ⟨5, 2, 3, 1, 1⟩]

def c4s1 : DB := { emptyDB with plays := [playT] }

def c4s2 : DB := { c4s1 with halls := [hallBig] }

def c4s3 : DB := { c4s2 with halls := [hallBig, hallTiny] }

def c4s4 : DB := { c4s3 with performances := [⟨1, 1, 1, stA⟩] }

def c4s5 : DB := { c4s4 with reservations := [⟨1, 1⟩], tickets := soldOut }

def c4s6 : DB := { c4s5 with performances := [⟨1, 1, 2, stA⟩] }

/-- The pre-state of the refutation: reachable, performance 1 moved to the
1×1 hall while its six tickets persist. -/
def c4BadPre : DB := { c4s6 with performances := [⟨1, 1, 2, stA⟩, ⟨2, 1, 2, stB⟩] }

/-- The post-state after one further successful ticket creation. -/
def c4BadPost : DB :=
  { c4BadPre with reservations := [⟨1, 1⟩, ⟨2, 2⟩],
                  tickets := soldOut ++ [⟨6, 1, 1, 2, 2⟩] }

/-- C4, counterexample to the claim as stated: `c4BadPre` is reachable
through the program's operations, the ticket creation on performance 2
succeeds, and yet performance 1 reads back with
`tickets_available = -5 < 0` — `updatePerformance` moved it to a smaller
hall without re-validating its persisted tickets. -/
theorem c4_counterexample :
    Reachable c4BadPre ∧
    createReservation c4BadPre 2 ⟨none, [⟨2, 1, 1⟩]⟩ = Except.ok c4BadPost ∧
    (⟨⟨1, 1, 2, stA⟩, playT, hallTiny, -5⟩ : AnnotatedPerformance)
        ∈ performancesQueryset c4BadPost none none ∧
    (⟨⟨1, 1, 2, stA⟩, playT, hallTiny, -5⟩ : AnnotatedPerformance).tickets_available < 0 :=
  ⟨Reachable.performance c4s6 c4BadPre 1 2 stB
      (Reachable.performanceUpd c4s5 c4s6 1 1 2 stA
        (Reachable.reservation c4s4 c4s5 1
            ⟨none, [⟨1, 1, 1⟩, ⟨1, 1, 2⟩, ⟨1, 1, 3⟩, ⟨1, 2, 1⟩, ⟨1, 2, 2⟩, ⟨1, 2, 3⟩]⟩
          (Reachable.performance c4s3 c4s4 1 1 stA
            (Reachable.hall c4s2 c4s3 "Tiny" 1 1
              (Reachable.hall c4s1 c4s2 "Big" 2 3
                (Reachable.play emptyDB c4s1 "T" "d" [] [] Reachable.empty (by decide))
                (by decide))
              (by decide))
            (by decide))
          (by decide))
        (by decide))
      (by decide),
   by decide, by decide, by decide⟩

/-- C6: the persisted reservation's owner is always the authenticated
caller — two requests differing only in the client-supplied `user` value
produce identical results, and every reservation a successful request adds
is owned by the caller. -/
theorem c6_owner_from_caller (db : DB) (c : Nat) (u1 u2 : Option Nat)
    (ts : List TicketRequest) :
    createReservation db c ⟨u1, ts⟩ = createReservation db c ⟨u2, ts⟩ ∧
    (∀ db', createReservation db c ⟨u1, ts⟩ = Except.ok db' →
      ∀ r ∈ db'.reservations, r ∈ db.reservations ∨ r.user_id = c) := by
  constructor
  · rfl
  · intro db' hok r hr
    rw [createReservation_ok_shape hok] at hr
    have hmem : r ∈ db.reservations ++
        [(⟨nextId (db.reservations.map Reservation.id), c⟩ : Reservation)] := hr
    rcases List.mem_append.mp hmem with hold | hnew
    · exact Or.inl hold
    · rw [List.mem_singleton] at hnew
      subst hnew
      exact Or.inr rfl

theorem c6_witness :
    createReservation exDb 1 ⟨some 99, [⟨1, 2, 3⟩]⟩ =
        createReservation exDb 1 ⟨none, [⟨1, 2, 3⟩]⟩ ∧
      ((⟨2, 1⟩ : Reservation) ∈ exDb.reservations ∨ (⟨2, 1⟩ : Reservation).user_id = 1) :=
  ⟨(c6_owner_from_caller exDb 1 (some 99) none [⟨1, 2, 3⟩]).1,
   (c6_owner_from_caller exDb 1 (some 99) none [⟨1, 2, 3⟩]).2
     { exDb with reservations := exDb.reservations ++ [⟨2, 1⟩],
                 tickets := exDb.tickets ++ [⟨1, 2, 3, 1, 2⟩] }
     (by decide) ⟨2, 1⟩ (by decide)⟩

end Theatre
